import Mathlib

/-!
Verification of the snapshot lifecycle manager in
src/linux_restore_point/linux_restore_point.py.

The script keeps no metadata records: the "catalog" is exactly the set of
files named <name>.tar.gz inside RESTORE_BASE_DIR.  We therefore embed the
catalog as the list of file names present in that directory, and Python
strings as lists of characters, with executable models of the Python string
operations the script uses (endswith, replace, strip, lower, split, int).
-/

namespace LinuxRestorePoint

/-- A Python string, embedded as its list of characters. -/
abbrev Str : Type := List Char

/-- Model of the Python expression s.endswith(suffix): suffix is a suffix of s. -/
def pyEndsWith (s suffixStr : Str) : Bool := List.isSuffixOf suffixStr s

/-- Fuel-driven worker for pyReplace; the fuel starts at the length of the
string, which bounds the number of recursion steps. -/
def pyReplaceAux : Nat → Str → Str → Str → Str
  | 0, s, _, _ => s
  | _ + 1, [], _, _ => []
  | fuel + 1, c :: rest, pat, repl =>
    if pat ≠ [] ∧ List.isPrefixOf pat (c :: rest) then
      repl ++ pyReplaceAux fuel ((c :: rest).drop pat.length) pat repl
    else
      c :: pyReplaceAux fuel rest pat repl

/-- Model of the Python expression s.replace(pat, repl) for a non-empty
pattern pat: every non-overlapping occurrence of pat, scanned left to
right, is replaced by repl.  (The script only ever calls replace with the
pattern ".tar.gz".) -/
def pyReplace (s pat repl : Str) : Str := pyReplaceAux s.length s pat repl

/-- Model of the Python expression s.strip(): drop leading and trailing
whitespace. -/
def pyStrip (s : Str) : Str :=
  ((s.dropWhile Char.isWhitespace).reverse.dropWhile Char.isWhitespace).reverse

/-- Model of the Python expression s.lower(), character by character. -/
def pyLower (s : Str) : Str := s.map Char.toLower

/-- Model of the Python expression s.split(','): split at every comma,
keeping empty pieces. -/
def pySplitComma : Str → List Str
  | [] => [[]]
  | c :: rest =>
    match pySplitComma rest with
    | [] => [[]]
    | h :: t => if c = ',' then [] :: h :: t else (c :: h) :: t

/-- Worker for pySplitWs, accumulating the current (reversed) token. -/
def pySplitWsAux : Str → Str → List Str
  | [], acc => if acc = [] then [] else [acc.reverse]
  | c :: rest, acc =>
    if Char.isWhitespace c then
      if acc = [] then pySplitWsAux rest [] else acc.reverse :: pySplitWsAux rest []
    else
      pySplitWsAux rest (c :: acc)

/-- Model of the Python expression s.split() with no argument: the
whitespace-delimited tokens of s, with empty tokens dropped. -/
def pySplitWs (s : Str) : List Str := pySplitWsAux s []

/-- Digit-sequence parser used by pyToInt: none unless the string is a
non-empty sequence of decimal digits. -/
def pyDigits : Str → Option Nat
  | [] => none
  | [c] => if c.isDigit then some (c.toNat - 48) else none
  | c :: rest =>
    if c.isDigit then
      (pyDigits rest).map (fun n => (c.toNat - 48) * 10 ^ rest.length + n)
    else
      none

/-- Model of the Python call int(s) on an already stripped string: an
optional sign followed by decimal digits; none models the ValueError
raised on any other input. -/
def pyToInt (s : Str) : Option Int :=
  match s with
  | '-' :: rest => (pyDigits rest).map (fun n => -(n : Int))
  | '+' :: rest => (pyDigits rest).map (fun n => (n : Int))
  | _ => (pyDigits s).map (fun n => (n : Int))

/-- Model of the Python expression sub in s: sub occurs as a contiguous
substring of s, i.e. sub is a prefix of some suffix of s. -/
def pyContains : Str → Str → Bool
  | [], sub => decide (sub = [])
  | c :: rest, sub => List.isPrefixOf sub (c :: rest) || pyContains rest sub

/-- Model of Python string comparison: lexicographic order on the character
code points, with a proper prefix ordered first. -/
def strLe : Str → Str → Bool
  | [], _ => true
  | _ :: _, [] => false
  | a :: as, b :: bs => if a = b then strLe as bs else decide (a.toNat < b.toNat)

/-- Insert a string into a list so that an already strLe-sorted list stays
sorted. -/
def insertSorted (x : Str) : List Str → List Str
  | [] => [x]
  | y :: ys => if strLe x y then x :: y :: ys else y :: insertSorted x ys

/-- Model of the Python builtin sorted() on a list of strings: insertion
sort under strLe.  Python string order is total and antisymmetric, so the
sorted output is unique and the choice of sorting algorithm is immaterial. -/
def pySorted (l : List Str) : List Str := l.foldr insertSorted []

/-- Model of the Python expression list(set(l)): the distinct elements of
l (order is immaterial here because the script immediately sorts them). -/
def pyDedup : List Str → List Str
  | [] => []
  | x :: xs => if x ∈ pyDedup xs then pyDedup xs else x :: pyDedup xs

/-- The RESTORE_BASE_DIR constant of the script. -/
def RESTORE_BASE_DIR : Str := ("/var/backups/linux_restore_points").data

/-- The archive suffix ".tar.gz" used throughout the script. -/
def tarGzExt : Str := (".tar.gz").data

/-- The state of the catalog directory RESTORE_BASE_DIR: the list of file
names it contains. -/
abbrev DirState : Type := List Str

/-- The archive file name the script derives from a restore-point name:
os.path.join(RESTORE_BASE_DIR, f-string name .tar.gz), with the fixed
directory part left implicit. -/
def archiveFileName (name : Str) : Str := name ++ tarGzExt

/-- Embedding of list_restore_points (lines 290-315): collect every file of
the directory whose name ends with ".tar.gz", display it with the
occurrences of ".tar.gz" removed (item.replace), and print the collection
sorted (sorted(restore_points)). -/
def list_restore_points (dir : DirState) : List Str :=
  pySorted ((dir.filter (fun item => pyEndsWith item tarGzExt)).map
    (fun item => pyReplace item tarGzExt []))

/-- Embedding of the name computation of create_restore_point (line 191):
an explicit name gets the timestamp appended, otherwise the generated name
is "restore_" followed by the timestamp.  Note that the backup type is not
an input of this computation in the script. -/
def restore_point_name (name : Option Str) (timestamp : Str) : Str :=
  match name with
  | some n => n ++ ("_").data ++ timestamp
  | none => ("restore_").data ++ timestamp

/-- Embedding of the backup_targets resolution of create_restore_point
(lines 194-203): "system" resolves to /etc, "full" to /etc and /home, and
any other type makes the script exit (modelled as none). -/
def baseTargets (backup_type : Str) : Option (List Str) :=
  if backup_type = ("system").data then some [("/etc").data]
  else if backup_type = ("full").data then some [("/etc").data, ("/home").data]
  else none

/-- Embedding of the index parsing of the USB selection (line 221): split
the selection at commas, strip each piece, keep non-empty pieces, parse
each as an int and subtract one; none models the ValueError that makes the
script skip USB inclusion entirely. -/
def parseSelectionIndices (selection : Str) : Option (List Int) :=
  (((pySplitComma selection).map pyStrip).filter (fun p => p ≠ [])).mapM
    (fun p => (pyToInt p).map (fun n => n - 1))

/-- One iteration of the USB selection loop (lines 222-226): an in-range
index appends the corresponding drive to the selection, an out-of-range
index is skipped with a warning. -/
def selectStep (usb_drives : List Str) (acc : List Str) (idx : Int) : List Str :=
  if 0 ≤ idx ∧ idx < (usb_drives.length : Int) then
    match usb_drives.get? idx.toNat with
    | some d => acc ++ [d]
    | none => acc
  else acc

/-- Embedding of the USB selection loop of create_restore_point
(lines 216-228): the normalized selection "all" selects every detected
drive; otherwise each parsed in-range index selects the corresponding
drive and out-of-range indices are skipped with a warning. -/
def selectUsb (usb_drives : List Str) (selection : Str) : List Str :=
  if selection = ("all").data then usb_drives
  else
    match parseSelectionIndices selection with
    | none => []
    | some idxs => idxs.foldl (selectStep usb_drives) []

/-- Embedding of the full backup_targets computation of
create_restore_point (lines 194-234): the base targets for the type,
extended, when --include-usb is given, by the drives selected from the
operator's raw input (which the script strips and lowercases).  none
models the sys.exit on an invalid backup type. -/
def createBackupTargets (backup_type : Str) (include_usb : Bool)
    (usb_drives : List Str) (rawSelection : Str) : Option (List Str) :=
  (baseTargets backup_type).map
    (fun base =>
      if include_usb then base ++ selectUsb usb_drives (pyLower (pyStrip rawSelection))
      else base)

/-- The exclusion list of create_restore_point (lines 236-239). -/
def exclude_paths : List Str :=
  [("/proc").data, ("/sys").data, ("/dev").data, ("/run").data, ("/tmp").data,
   ("/mnt").data, ("/media").data, RESTORE_BASE_DIR ++ ("/*").data]

/-- How the archiver pipeline of create_restore_point ends: the pipeline
exits zero, exits non-zero, or the process is interrupted before the
pipeline finishes. -/
inductive ArchiverOutcome : Type
  | success : ArchiverOutcome
  | failure : ArchiverOutcome
  | interrupted : ArchiverOutcome
deriving DecidableEq

/-- Result of the archiver step of create_restore_point: the directory
contents afterwards, and the process exit code (none when the process was
killed before exiting). -/
structure CreateStepResult : Type where
  dir : DirState
  exit : Option Nat
deriving DecidableEq

/-- Embedding of the archiver step of create_restore_point
(lines 272-287) together with run_command (lines 94-116).  The shell
command is tar ... | gzip > archive_path (optionally with pv); the shell
creates the destination file through the output redirection when the
pipeline starts, so the file exists regardless of how the pipeline ends.
On a non-zero pipeline exit run_command logs the error and calls
sys.exit(1); neither run_command nor create_restore_point removes the
partially written archive on any failure path, and an interrupt kills the
process with the file in place. -/
def createArchiveStep (dir : DirState) (rpName : Str) (o : ArchiverOutcome) :
    CreateStepResult :=
  let dirAfter : DirState := dir ++ [archiveFileName rpName]
  match o with
  | ArchiverOutcome.success => { dir := dirAfter, exit := some 0 }
  | ArchiverOutcome.failure => { dir := dirAfter, exit := some 1 }
  | ArchiverOutcome.interrupted => { dir := dirAfter, exit := none }

/-- The confirmation test shared by restore_from_point (lines 336-341) and
delete_restore_point (lines 374-379): the prompt answer is stripped,
lowercased and compared with "yes". -/
def confirmationMatches (answer : Str) : Bool :=
  decide (pyLower (pyStrip answer) = ("yes").data)

/-- How the tar extraction pipeline of restore_from_point ends. -/
inductive ExtractOutcome : Type
  | success : ExtractOutcome
  | failure : ExtractOutcome
deriving DecidableEq

/-- How the os.remove call of delete_restore_point ends. -/
inductive RemoveOutcome : Type
  | success : RemoveOutcome
  | oserror : RemoveOutcome
deriving DecidableEq

/-- Observable result of a restore invocation: the catalog directory
afterwards (restore never mutates it), the process exit code, whether the
operation was cancelled at the prompt, whether the extraction pipeline was
started (it overwrites the live filesystem), and the catalog listing
printed as a hint on the not-found path. -/
structure RestoreResult : Type where
  dir : DirState
  exit : Nat
  cancelled : Bool
  extractionRan : Bool
  hint : Option (List Str)
deriving DecidableEq

/-- Embedding of restore_from_point (lines 318-357): if the archive file
does not exist, log the error, print the catalog listing and exit 1;
otherwise prompt, and on a non-matching answer cancel and return (the
process then exits 0); on a matching answer run the extraction pipeline
through run_command, which exits 1 on a non-zero pipeline exit. -/
def restore_from_point (dir : DirState) (name : Str) (answer : Str)
    (ext : ExtractOutcome) : RestoreResult :=
  if archiveFileName name ∈ dir then
    if confirmationMatches answer then
      match ext with
      | ExtractOutcome.success =>
          { dir := dir, exit := 0, cancelled := false, extractionRan := true, hint := none }
      | ExtractOutcome.failure =>
          { dir := dir, exit := 1, cancelled := false, extractionRan := true, hint := none }
    else
      { dir := dir, exit := 0, cancelled := true, extractionRan := false, hint := none }
  else
    { dir := dir, exit := 1, cancelled := false, extractionRan := false,
      hint := some (list_restore_points dir) }

/-- Observable result of a delete invocation, with the same reading as
RestoreResult; removalRan records whether os.remove was attempted. -/
structure DeleteResult : Type where
  dir : DirState
  exit : Nat
  cancelled : Bool
  removalRan : Bool
  hint : Option (List Str)
deriving DecidableEq

/-- Embedding of delete_restore_point (lines 359-388): if the archive file
does not exist, log the error, print the catalog listing and exit 1;
otherwise prompt, and on a non-matching answer cancel and return (exit 0);
on a matching answer call os.remove, which either removes the file
(exit 0) or raises OSError (logged, exit 1, file left in place). -/
def delete_restore_point (dir : DirState) (name : Str) (answer : Str)
    (rm : RemoveOutcome) : DeleteResult :=
  if archiveFileName name ∈ dir then
    if confirmationMatches answer then
      match rm with
      | RemoveOutcome.success =>
          { dir := dir.erase (archiveFileName name), exit := 0, cancelled := false,
            removalRan := true, hint := none }
      | RemoveOutcome.oserror =>
          { dir := dir, exit := 1, cancelled := false, removalRan := true, hint := none }
    else
      { dir := dir, exit := 0, cancelled := true, removalRan := false, hint := none }
  else
    { dir := dir, exit := 1, cancelled := false, removalRan := false,
      hint := some (list_restore_points dir) }

/-- The option strings the argument parser of main (lines 392-431)
accepts: the four explicit add_argument calls plus the help option that
argparse registers automatically.  The positional action argument accepts
create, list, restore and delete. -/
def cliOptionStrings : List Str :=
  [("-h").data, ("--help").data, ("-n").data, ("--name").data,
   ("-t").data, ("--type").data, ("--include-usb").data]

/-- The observable steps of an invocation, at the granularity needed to
settle where the explicit privilege check of run_command (lines 91-93)
happens relative to the other work of each operation. -/
inductive Event : Type
  | mkdirRun : Event
  | configureLogging : Event
  | invalidTypeError : Event
  | usbScan : Event
  | sizeEstimation : Event
  | pvCheck : Event
  | privilegeError : Event
  | archiverRun : Event
  | notFoundError : Event
  | confirmationPrompt : Event
  | cancelledMessage : Event
  | extractRun : Event
  | removeRun : Event
  | removeError : Event
deriving DecidableEq

/-- Embedding of ensure_restore_dir (lines 118-130), executed when the
module loads, for every action: when the base directory is missing, the mkdir
runs through run_command with check_sudo, so a non-root process hits the
explicit privilege check here; when the directory already exists, nothing
runs and in particular no privilege check happens.  none models the
sys.exit(1) of the failed check. -/
def ensureDirTrace (dirExists isRoot : Bool) : Option (List Event) :=
  if dirExists then some []
  else if isRoot then some [Event.mkdirRun]
  else none

/-- Embedding of the event order of create_restore_point (lines 183-287)
for a given environment: logging setup, type validation, the optional USB
enumeration and prompt, the du size estimation, the pv check, and only
then the archiver run through run_command with check_sudo, where a
non-root process finally hits the explicit privilege check. -/
def createTrace (dirExists isRoot include_usb typeValid : Bool) : List Event :=
  match ensureDirTrace dirExists isRoot with
  | none => [Event.privilegeError]
  | some pre =>
    pre ++ [Event.configureLogging] ++
      (if typeValid then
        (if include_usb then [Event.usbScan] else []) ++
          [Event.sizeEstimation, Event.pvCheck] ++
          (if isRoot then [Event.archiverRun] else [Event.privilegeError])
      else [Event.invalidTypeError])

/-- Embedding of the event order of restore_from_point (lines 318-357):
logging setup, the existence check (not-found error with listing hint),
the confirmation prompt, and on a matching answer the pv check followed by
the extraction through run_command with check_sudo, where a non-root
process hits the explicit privilege check. -/
def restoreTrace (dirExists isRoot found confMatches : Bool) : List Event :=
  match ensureDirTrace dirExists isRoot with
  | none => [Event.privilegeError]
  | some pre =>
    pre ++ [Event.configureLogging] ++
      (if found then
        [Event.confirmationPrompt] ++
          (if confMatches then
            [Event.pvCheck] ++
              (if isRoot then [Event.extractRun] else [Event.privilegeError])
          else [Event.cancelledMessage])
      else [Event.notFoundError])

/-- Embedding of the event order of delete_restore_point (lines 359-388):
logging setup, the existence check, the confirmation prompt, and on a
matching answer a direct os.remove call.  delete_restore_point never calls
run_command, so no explicit privilege check occurs anywhere in it; a
non-root removal surfaces only as the caught OSError of os.remove. -/
def deleteTrace (dirExists isRoot found confMatches removeOk : Bool) : List Event :=
  match ensureDirTrace dirExists isRoot with
  | none => [Event.privilegeError]
  | some pre =>
    pre ++ [Event.configureLogging] ++
      (if found then
        [Event.confirmationPrompt] ++
          (if confMatches then
            (if removeOk then [Event.removeRun] else [Event.removeError])
          else [Event.cancelledMessage])
      else [Event.notFoundError])

/-- The tuple of mount-path prefixes that get_mounted_usb_drives
(lines 166 and 169) refuses to treat as removable mounts. -/
def systemMountPrefixList : List Str :=
  [("/boot").data, ("/var").data, ("/usr").data, ("/opt").data, ("/lib").data,
   ("/etc").data, ("/bin").data, ("/sbin").data, ("/root").data]

/-- Model of the Python expression mountpoint.startswith(tuple): the mount
path starts with one of the refused system prefixes. -/
def excludedMount (mp : Str) : Bool :=
  systemMountPrefixList.any (fun p => List.isPrefixOf p mp)

/-- The whitespace-separated fields of one lsblk output line, as the
script computes them with line.split(). -/
def lineParts (line : Str) : List Str := pySplitWs line

/-- The TRAN field of one lsblk line as the script reads it (line 162):
parts[3] when present, else the empty string. -/
def lineTransport (line : Str) : Str :=
  let parts := lineParts line
  if parts.length > 3 then parts.getD 3 [] else []

/-- The TYPE field of one lsblk line as the script reads it (line 161). -/
def lineDevType (line : Str) : Str := (lineParts line).getD 2 []

/-- The MOUNTPOINT field of one lsblk line as the script reads it
(line 160), before the "(null)" test. -/
def lineMountpoint (line : Str) : Str := (lineParts line).getD 1 []

/-- What processing one lsblk line does inside the loop of
get_mounted_usb_drives (lines 154-170). -/
inductive LineStep : Type
  | skip : LineStep
  | take : Str → LineStep
  | err : LineStep
deriving DecidableEq

/-- Embedding of one iteration of the lsblk loop (lines 154-170): fewer
than two fields is skipped by the guard; exactly two fields raises
IndexError at parts[2] (caught by the surrounding handler); a "(null)"
mount point is treated as absent and both branch conditions fail;
otherwise the mount point is taken when it starts with "/", the device
type is part or disk, the lowercased transport contains "usb", and the
mount point does not start with one of the refused system prefixes. -/
def lsblkLineStep (line : Str) : LineStep :=
  if (lineParts line).length < 2 then LineStep.skip
  else if (lineParts line).length < 3 then LineStep.err
  else if lineMountpoint line = ("(null)").data then LineStep.skip
  else if List.isPrefixOf (("/").data) (lineMountpoint line)
      && decide (lineDevType line = ("part").data)
      && pyContains (pyLower (lineTransport line)) (("usb").data) then
    (if excludedMount (lineMountpoint line) then LineStep.skip
     else LineStep.take (lineMountpoint line))
  else if List.isPrefixOf (("/").data) (lineMountpoint line)
      && decide (lineDevType line = ("disk").data)
      && pyContains (pyLower (lineTransport line)) (("usb").data) then
    (if excludedMount (lineMountpoint line) then LineStep.skip
     else LineStep.take (lineMountpoint line))
  else LineStep.skip

/-- Embedding of the whole lsblk loop: collect the taken mount points in
order; none models an exception escaping the loop into the surrounding
handler. -/
def processLsblkLines : List Str → Option (List Str)
  | [] => some []
  | line :: rest =>
    match lsblkLineStep line with
    | LineStep.err => none
    | LineStep.skip => processLsblkLines rest
    | LineStep.take mp => (processLsblkLines rest).map (fun mps => mp :: mps)

/-- Embedding of get_mounted_usb_drives (lines 142-179).  The first
argument is the lsblk output split into lines, with none modelling a
failure of the lsblk subprocess itself; isDir models os.path.isdir.  The
except handler turns any exception into a warning (the returned flag) and
an empty result; otherwise the collected mount points are deduplicated
(set), sorted, and filtered through os.path.isdir. -/
def get_mounted_usb_drives (lsblkLines : Option (List Str)) (isDir : Str → Bool) :
    List Str × Bool :=
  match lsblkLines with
  | none => ([], true)
  | some lines =>
    match processLsblkLines lines with
    | none => ([], true)
    | some mps => ((pySorted (pyDedup mps)).filter isDir, false)

/-! Helper lemmas about the embedded string operations and the sort. -/

/-- Characters with the same code point are equal. -/
theorem char_toNat_inj (a b : Char) (h : a.toNat = b.toNat) : a = b := by
  simp only [Char.toNat] at h
  exact Char.eq_of_val_eq (UInt32.toNat.inj h)

/-- Python string comparison is total. -/
theorem strLe_total : ∀ (a b : Str), strLe a b = true ∨ strLe b a = true
  | [], _ => Or.inl rfl
  | _ :: _, [] => Or.inr rfl
  | a :: as, b :: bs => by
    by_cases hab : a = b
    · subst hab
      rcases strLe_total as bs with h | h
      · exact Or.inl (by simp [strLe, h])
      · exact Or.inr (by simp [strLe, h])
    · have hne : a.toNat ≠ b.toNat := fun hn => hab (char_toNat_inj a b hn)
      rcases Nat.lt_or_ge a.toNat b.toNat with h | h
      · exact Or.inl (by simp [strLe, hab, h])
      · have hlt : b.toNat < a.toNat := Nat.lt_of_le_of_ne h (fun hn => hne hn.symm)
        exact Or.inr (by simp [strLe, Ne.symm hab, hlt])

/-- Python string comparison is transitive. -/
theorem strLe_trans : ∀ (a b c : Str),
    strLe a b = true → strLe b c = true → strLe a c = true
  | [], _, _, _, _ => rfl
  | _ :: _, [], _, h, _ => by simp [strLe] at h
  | _ :: _, _ :: _, [], _, h => by simp [strLe] at h
  | a :: as, b :: bs, c :: cs, h1, h2 => by
    by_cases hab : a = b <;> by_cases hbc : b = c
    · subst hab; subst hbc
      simp only [strLe, if_pos rfl] at h1 h2 ⊢
      exact strLe_trans as bs cs h1 h2
    · subst hab
      simp only [strLe, if_pos rfl] at h1
      simp only [strLe, if_neg hbc] at h2
      simp [strLe, hbc, h2]
    · subst hbc
      simp only [strLe, if_neg hab] at h1
      simp [strLe, hab, h1]
    · simp only [strLe, if_neg hab] at h1
      simp only [strLe, if_neg hbc] at h2
      have hlt : a.toNat < c.toNat :=
        Nat.lt_trans (of_decide_eq_true h1) (of_decide_eq_true h2)
      have hac : a ≠ c := fun hn => Nat.lt_irrefl a.toNat (hn ▸ hlt)
      simp [strLe, hac, hlt]

/-- Inserting into the sort produces a permutation of consing. -/
theorem insertSorted_perm (x : Str) (l : List Str) :
    List.Perm (insertSorted x l) (x :: l) := by
  induction l with
  | nil => exact List.Perm.refl _
  | cons y ys ih =>
    simp only [insertSorted]
    split
    · exact List.Perm.refl _
    · exact (ih.cons y).trans (List.Perm.swap x y ys)

/-- The embedded sorted() is a permutation of its input. -/
theorem pySorted_perm (l : List Str) : List.Perm (pySorted l) l := by
  induction l with
  | nil => exact List.Perm.refl _
  | cons x xs ih =>
    exact (insertSorted_perm x (pySorted xs)).trans (ih.cons x)

/-- Membership in the embedded sorted() output. -/
theorem mem_pySorted (a : Str) (l : List Str) : a ∈ pySorted l ↔ a ∈ l :=
  (pySorted_perm l).mem_iff

/-- Inserting into a strLe-sorted list keeps it sorted. -/
theorem pairwise_insertSorted (x : Str) (l : List Str)
    (h : l.Pairwise (fun a b => strLe a b = true)) :
    (insertSorted x l).Pairwise (fun a b => strLe a b = true) := by
  induction l with
  | nil => simp [insertSorted]
  | cons y ys ih =>
    rcases List.pairwise_cons.mp h with ⟨hy, hys⟩
    simp only [insertSorted]
    split
    · next hxy =>
      refine List.pairwise_cons.mpr ⟨?_, h⟩
      intro z hz
      rcases List.mem_cons.mp hz with rfl | hz
      · exact hxy
      · exact strLe_trans x y z hxy (hy z hz)
    · next hxy =>
      have hyx : strLe y x = true := by
        rcases strLe_total x y with hh | hh
        · exact absurd hh hxy
        · exact hh
      refine List.pairwise_cons.mpr ⟨?_, ih hys⟩
      intro z hz
      rcases List.mem_cons.mp ((insertSorted_perm x ys).mem_iff.mp hz) with rfl | hz
      · exact hyx
      · exact hy z hz

/-- The embedded sorted() output is sorted in ascending Python string
order. -/
theorem pairwise_pySorted (l : List Str) :
    (pySorted l).Pairwise (fun a b => strLe a b = true) := by
  induction l with
  | nil => simp [pySorted]
  | cons x xs ih => exact pairwise_insertSorted x (pySorted xs) ih

/-- Appending a suffix makes pyEndsWith succeed. -/
theorem pyEndsWith_append (a b : Str) : pyEndsWith (a ++ b) b = true := by
  simp [pyEndsWith]

/-- Membership in the displayed catalog listing, unfolded to the files of
the directory. -/
theorem mem_list_restore_points (dir : DirState) (n : Str) :
    n ∈ list_restore_points dir ↔
      ∃ f, f ∈ dir ∧ pyEndsWith f tarGzExt = true ∧ pyReplace f tarGzExt [] = n := by
  unfold list_restore_points
  rw [mem_pySorted]
  simp only [List.mem_map, List.mem_filter]
  constructor
  · rintro ⟨f, ⟨hf, he⟩, hr⟩
    exact ⟨f, hf, he, hr⟩
  · rintro ⟨f, hf, he, hr⟩
    exact ⟨f, ⟨hf, he⟩, hr⟩

/-- Every drive selected by the USB selection loop is one of the
enumerated drives. -/
theorem selectStep_mem (drives acc : List Str) (idx : Int) (p : Str)
    (h : p ∈ selectStep drives acc idx) : p ∈ acc ∨ p ∈ drives := by
  unfold selectStep at h
  split at h
  · split at h
    · next d hd =>
      rcases List.mem_append.mp h with hp | hp
      · exact Or.inl hp
      · rcases List.mem_singleton.mp hp with rfl
        exact Or.inr (List.get?_mem hd)
    · exact Or.inl h
  · exact Or.inl h

/-- Every drive accumulated by folding the selection steps is either in
the accumulator or among the enumerated drives. -/
theorem selectFold_mem (drives : List Str) : ∀ (idxs : List Int) (acc : List Str) (p : Str),
    p ∈ idxs.foldl (selectStep drives) acc → p ∈ acc ∨ p ∈ drives
  | [], _, _, h => Or.inl h
  | i :: is, acc, p, h => by
    rcases selectFold_mem drives is (selectStep drives acc i) p h with hacc | hd
    · exact selectStep_mem drives acc i p hacc
    · exact Or.inr hd

/-- Every drive returned by selectUsb is one of the enumerated drives. -/
theorem selectUsb_mem (drives : List Str) (sel : Str) (p : Str)
    (h : p ∈ selectUsb drives sel) : p ∈ drives := by
  unfold selectUsb at h
  split at h
  · exact h
  · split at h
    · simp at h
    · rcases selectFold_mem drives _ [] p h with hacc | hd
      · simp at hacc
      · exact hd

/-- A taken lsblk line yields its mount point, which does not start with a
refused system prefix; the line's device type is part or disk and its
lowercased transport contains "usb". -/
theorem lsblkLineStep_take (line mp : Str) (h : lsblkLineStep line = LineStep.take mp) :
    mp = lineMountpoint line ∧ excludedMount mp = false ∧
      pyContains (pyLower (lineTransport line)) (("usb").data) = true ∧
      (lineDevType line = ("part").data ∨ lineDevType line = ("disk").data) := by
  unfold lsblkLineStep at h
  split at h
  · exact absurd h (by simp)
  · split at h
    · exact absurd h (by simp)
    · split at h
      · exact absurd h (by simp)
      · split at h
        · next hcond =>
          split at h
          · exact absurd h (by simp)
          · next hexc =>
            rcases LineStep.take.inj h with rfl
            refine ⟨rfl, by simpa using hexc, ?_, Or.inl ?_⟩
            · have := (Bool.and_eq_true _ _).mp hcond
              exact this.2
            · have := (Bool.and_eq_true _ _).mp ((Bool.and_eq_true _ _).mp hcond).1
              exact of_decide_eq_true this.2
        · split at h
          · next hcond =>
            split at h
            · exact absurd h (by simp)
            · next hexc =>
              rcases LineStep.take.inj h with rfl
              refine ⟨rfl, by simpa using hexc, ?_, Or.inr ?_⟩
              · have := (Bool.and_eq_true _ _).mp hcond
                exact this.2
              · have := (Bool.and_eq_true _ _).mp ((Bool.and_eq_true _ _).mp hcond).1
                exact of_decide_eq_true this.2
          · exact absurd h (by simp)

/-- Every mount point collected by the lsblk loop comes from a taken
line. -/
theorem processLsblkLines_mem : ∀ (lines : List Str) (mps : List Str),
    processLsblkLines lines = some mps → ∀ mp ∈ mps,
      ∃ line, line ∈ lines ∧ lsblkLineStep line = LineStep.take mp
  | [], mps, h, mp, hmp => by
    simp only [processLsblkLines, Option.some.injEq] at h
    subst h
    simp at hmp
  | line :: rest, mps, h, mp, hmp => by
    simp only [processLsblkLines] at h
    cases hstep : lsblkLineStep line with
    | err => rw [hstep] at h; simp at h
    | skip =>
      rw [hstep] at h
      rcases processLsblkLines_mem rest mps h mp hmp with ⟨l, hl, ht⟩
      exact ⟨l, List.mem_cons_of_mem line hl, ht⟩
    | take m =>
      rw [hstep] at h
      cases hrest : processLsblkLines rest with
      | none => rw [hrest] at h; simp at h
      | some ms =>
        rw [hrest] at h
        simp only [Option.map_some', Option.some.injEq] at h
        subst h
        rcases List.mem_cons.mp hmp with rfl | hmp2
        · exact ⟨line, List.mem_cons_self line rest, hstep⟩
        · rcases processLsblkLines_mem rest ms hrest mp hmp2 with ⟨l, hl, ht⟩
          exact ⟨l, List.mem_cons_of_mem line hl, ht⟩

/-- Membership survives the deduplication of the collected mount
points. -/
theorem mem_pyDedup (a : Str) : ∀ (l : List Str), a ∈ pyDedup l → a ∈ l
  | [], h => by simp [pyDedup] at h
  | x :: xs, h => by
    simp only [pyDedup] at h
    split at h
    · exact List.mem_cons_of_mem x (mem_pyDedup a xs h)
    · rcases List.mem_cons.mp h with rfl | h2
      · exact List.mem_cons_self a xs
      · exact List.mem_cons_of_mem x (mem_pyDedup a xs h2)

/-! Claim theorems. -/

/-- C1 counterexample: a Create whose archiver pipeline fails does retain
a partial snapshot in the catalog, contrary to the claim.  Starting from
an empty catalog, a failed archiver step exits 1 yet leaves the partial
archive in the catalog directory, and a subsequent List shows one record
for that snapshot name instead of zero. -/
theorem claim1_counterexample :
    (createArchiveStep [] (("restore_20240101_120000").data)
        ArchiverOutcome.failure).exit = some 1 ∧
    list_restore_points
        (createArchiveStep [] (("restore_20240101_120000").data)
          ArchiverOutcome.failure).dir
      = [("restore_20240101_120000").data] := by
  constructor
  · rfl
  · decide

/-- C1 (amended): when the archiver pipeline of Create fails or the
process is interrupted before the pipeline reports success, the partially
written archive file remains in the catalog directory (the shell creates
it through the output redirection and no failure path removes it), the
process does not exit 0, and a subsequent List shows a record for that
snapshot name. -/
theorem claim1_amended (dir : DirState) (n : Str) (o : ArchiverOutcome)
    (h : o ≠ ArchiverOutcome.success) :
    (createArchiveStep dir n o).dir = dir ++ [archiveFileName n] ∧
    (createArchiveStep dir n o).exit ≠ some 0 ∧
    pyReplace (archiveFileName n) tarGzExt [] ∈
      list_restore_points (createArchiveStep dir n o).dir := by
  have hdir : (createArchiveStep dir n o).dir = dir ++ [archiveFileName n] := by
    cases o <;> rfl
  refine ⟨hdir, ?_, ?_⟩
  · cases o
    · exact absurd rfl h
    · simp [createArchiveStep]
    · simp [createArchiveStep]
  · rw [hdir]
    refine (mem_list_restore_points _ _).mpr ⟨archiveFileName n, by simp, ?_, rfl⟩
    unfold archiveFileName
    exact pyEndsWith_append n tarGzExt

/-- C1 witness: the amended statement instantiated at an empty catalog and
a failed pipeline. -/
theorem claim1_witness :
    (ArchiverOutcome.failure ≠ ArchiverOutcome.success) ∧
    ((createArchiveStep [] (("restore_20240101_120000").data)
          ArchiverOutcome.failure).dir
        = [] ++ [archiveFileName (("restore_20240101_120000").data)] ∧
      (createArchiveStep [] (("restore_20240101_120000").data)
          ArchiverOutcome.failure).exit ≠ some 0 ∧
      pyReplace (archiveFileName (("restore_20240101_120000").data)) tarGzExt [] ∈
        list_restore_points
          (createArchiveStep [] (("restore_20240101_120000").data)
            ArchiverOutcome.failure).dir) :=
  ⟨by decide,
   claim1_amended [] (("restore_20240101_120000").data) ArchiverOutcome.failure
     (by decide)⟩

/-- C2 counterexample: after two successful creates, the older snapshot
(whose timestamp-bearing name is lexicographically smaller) is listed
first, so List is not ordered by descending creation time. -/
theorem claim2_counterexample :
    list_restore_points
        (createArchiveStep
          (createArchiveStep [] (("restore_20240101_120000").data)
            ArchiverOutcome.success).dir
          (("restore_20240102_120000").data) ArchiverOutcome.success).dir
      = [("restore_20240101_120000").data, ("restore_20240102_120000").data] ∧
    list_restore_points
        (createArchiveStep
          (createArchiveStep [] (("restore_20240101_120000").data)
            ArchiverOutcome.success).dir
          (("restore_20240102_120000").data) ArchiverOutcome.success).dir
      ≠ [("restore_20240102_120000").data, ("restore_20240101_120000").data] := by
  constructor
  · decide
  · decide

/-- C2 (amended): List returns exactly one record per archive file of the
catalog (the same number of records, and the records are the displayed
names of exactly those files), ordered ascending in Python string order of
the displayed names, which for default timestamp-suffixed names is
ascending creation time, oldest first. -/
theorem claim2_amended (dir : DirState) :
    List.Perm (list_restore_points dir)
      ((dir.filter (fun f => pyEndsWith f tarGzExt)).map
        (fun f => pyReplace f tarGzExt [])) ∧
    (list_restore_points dir).length
      = (dir.filter (fun f => pyEndsWith f tarGzExt)).length ∧
    (list_restore_points dir).Pairwise (fun a b => strLe a b = true) := by
  refine ⟨pySorted_perm _, ?_, pairwise_pySorted _⟩
  unfold list_restore_points
  rw [(pySorted_perm _).length_eq, List.length_map]

/-- C3 counterexample: the argument parser of main registers no --force
option at all, so restore and delete cannot accept one. -/
theorem claim3_counterexample : ("--force").data ∉ cliOptionStrings := by
  decide

/-- C3 (amended): there is no --force flag; interactive confirmation is
always required, and whenever the confirmation answer does not match, the
destructive action (extraction or removal) does not run and the catalog is
unchanged. -/
theorem claim3_amended (dir : DirState) (name answer : Str)
    (ext : ExtractOutcome) (rm : RemoveOutcome)
    (h : confirmationMatches answer = false) :
    ("--force").data ∉ cliOptionStrings ∧
    (restore_from_point dir name answer ext).extractionRan = false ∧
    (delete_restore_point dir name answer rm).removalRan = false ∧
    (delete_restore_point dir name answer rm).dir = dir := by
  refine ⟨by decide, ?_, ?_, ?_⟩
  · unfold restore_from_point
    split
    · simp [h]
    · rfl
  · unfold delete_restore_point
    split
    · simp [h]
    · rfl
  · unfold delete_restore_point
    split
    · simp [h]
    · rfl

/-- C3 witness: the amended statement instantiated at a non-matching
confirmation answer. -/
theorem claim3_witness :
    confirmationMatches (("no").data) = false ∧
    (("--force").data ∉ cliOptionStrings ∧
      (restore_from_point [("a.tar.gz").data] (("a").data) (("no").data)
          ExtractOutcome.success).extractionRan = false ∧
      (delete_restore_point [("a.tar.gz").data] (("a").data) (("no").data)
          RemoveOutcome.success).removalRan = false ∧
      (delete_restore_point [("a.tar.gz").data] (("a").data) (("no").data)
          RemoveOutcome.success).dir = [("a.tar.gz").data]) :=
  ⟨by decide,
   claim3_amended [("a.tar.gz").data] (("a").data) (("no").data)
     ExtractOutcome.success RemoveOutcome.success (by decide)⟩

/-- C4 counterexample: a non-root create with an existing base directory
performs logging setup, size estimation and the pv check before the
privilege error, so the privilege error is not reported at startup before
any other work. -/
theorem claim4_counterexample :
    createTrace true false false true
      = [Event.configureLogging, Event.sizeEstimation, Event.pvCheck,
         Event.privilegeError] ∧
    (createTrace true false false true).head? ≠ some Event.privilegeError := by
  constructor
  · decide
  · decide

/-- C4 (amended): the privilege check happens only where run_command is
called with check_sudo.  For a non-root create it is reported at startup
only when the base directory must be created; otherwise it comes after
logging setup, the optional USB scan, size estimation and the pv check.
For a non-root restore it comes after the confirmation prompt.  Delete
never performs the explicit privilege check (its failure without root
surfaces only as the caught OSError of os.remove). -/
theorem claim4_amended (includeUsb isRoot found confMatches removeOk : Bool) :
    createTrace true false includeUsb true
      = [Event.configureLogging] ++ (if includeUsb then [Event.usbScan] else []) ++
        [Event.sizeEstimation, Event.pvCheck, Event.privilegeError] ∧
    createTrace false false includeUsb true = [Event.privilegeError] ∧
    restoreTrace true false found confMatches
      = [Event.configureLogging] ++
        (if found then
          [Event.confirmationPrompt] ++
            (if confMatches then [Event.pvCheck, Event.privilegeError]
             else [Event.cancelledMessage])
        else [Event.notFoundError]) ∧
    Event.privilegeError ∉ deleteTrace true isRoot found confMatches removeOk := by
  cases includeUsb <;> cases isRoot <;> cases found <;> cases confMatches <;>
    cases removeOk <;> decide

/-- C5: for a restore or delete of an existing snapshot in which the
confirmation answer does not match the confirmation test (stripped and
lowercased answer equal to "yes"), the operation is cancelled: no
extraction runs, no archive is removed, the catalog directory is
unchanged, and the process exits 0. -/
theorem claim5_confirmation_mismatch (dir : DirState) (name answer : Str)
    (ext : ExtractOutcome) (rm : RemoveOutcome)
    (hfound : archiveFileName name ∈ dir)
    (h : confirmationMatches answer = false) :
    restore_from_point dir name answer ext
      = { dir := dir, exit := 0, cancelled := true, extractionRan := false,
          hint := none } ∧
    delete_restore_point dir name answer rm
      = { dir := dir, exit := 0, cancelled := true, removalRan := false,
          hint := none } := by
  constructor
  · unfold restore_from_point
    rw [if_pos hfound]
    simp [h]
  · unfold delete_restore_point
    rw [if_pos hfound]
    simp [h]

/-- C5 witness: the statement instantiated at a one-snapshot catalog and
the answer "no". -/
theorem claim5_witness :
    (archiveFileName (("a").data) ∈ [("a.tar.gz").data]) ∧
    (confirmationMatches (("no").data) = false) ∧
    (restore_from_point [("a.tar.gz").data] (("a").data) (("no").data)
        ExtractOutcome.success
      = { dir := [("a.tar.gz").data], exit := 0, cancelled := true,
          extractionRan := false, hint := none } ∧
     delete_restore_point [("a.tar.gz").data] (("a").data) (("no").data)
        RemoveOutcome.success
      = { dir := [("a.tar.gz").data], exit := 0, cancelled := true,
          removalRan := false, hint := none }) :=
  ⟨by decide, by decide,
   claim5_confirmation_mismatch [("a.tar.gz").data] (("a").data) (("no").data)
     ExtractOutcome.success RemoveOutcome.success (by decide) (by decide)⟩

/-- C6: for a name with no archive file in the catalog, restore and delete
report the not-found error with the current catalog listing as a hint,
exit 1, and leave the catalog directory unchanged with no extraction or
removal performed. -/
theorem claim6_not_found (dir : DirState) (name answer : Str)
    (ext : ExtractOutcome) (rm : RemoveOutcome)
    (h : archiveFileName name ∉ dir) :
    restore_from_point dir name answer ext
      = { dir := dir, exit := 1, cancelled := false, extractionRan := false,
          hint := some (list_restore_points dir) } ∧
    delete_restore_point dir name answer rm
      = { dir := dir, exit := 1, cancelled := false, removalRan := false,
          hint := some (list_restore_points dir) } := by
  constructor
  · unfold restore_from_point
    rw [if_neg h]
  · unfold delete_restore_point
    rw [if_neg h]

/-- C6 witness: the statement instantiated at a one-snapshot catalog and a
name that is not in it. -/
theorem claim6_witness :
    (archiveFileName (("ghost").data) ∉ [("a.tar.gz").data]) ∧
    (restore_from_point [("a.tar.gz").data] (("ghost").data) (("yes").data)
        ExtractOutcome.success
      = { dir := [("a.tar.gz").data], exit := 1, cancelled := false,
          extractionRan := false,
          hint := some (list_restore_points [("a.tar.gz").data]) } ∧
     delete_restore_point [("a.tar.gz").data] (("ghost").data) (("yes").data)
        RemoveOutcome.success
      = { dir := [("a.tar.gz").data], exit := 1, cancelled := false,
          removalRan := false,
          hint := some (list_restore_points [("a.tar.gz").data]) }) :=
  ⟨by decide,
   claim6_not_found [("a.tar.gz").data] (("ghost").data) (("yes").data)
     ExtractOutcome.success RemoveOutcome.success (by decide)⟩

/-- C7: every successful target resolution of Create splits as the base
path set for the type, exactly /etc for system and exactly /etc, /home for
full, followed by the operator-confirmed removable selections, each of
which is one of the enumerated drives; without --include-usb nothing is
appended. -/
theorem claim7_targets (btype : Str) (includeUsb : Bool) (drives : List Str)
    (rawSel : Str) (targets : List Str)
    (h : createBackupTargets btype includeUsb drives rawSel = some targets) :
    ∃ base extra,
      baseTargets btype = some base ∧
      targets = base ++ extra ∧
      ((btype = ("system").data ∧ base = [("/etc").data]) ∨
       (btype = ("full").data ∧ base = [("/etc").data, ("/home").data])) ∧
      (∀ p ∈ extra, p ∈ drives) ∧
      (includeUsb = false → extra = []) := by
  unfold createBackupTargets at h
  cases hb : baseTargets btype with
  | none => rw [hb] at h; simp at h
  | some base =>
    rw [hb] at h
    simp only [Option.map_some', Option.some.injEq] at h
    have hbase : (btype = ("system").data ∧ base = [("/etc").data]) ∨
        (btype = ("full").data ∧ base = [("/etc").data, ("/home").data]) := by
      unfold baseTargets at hb
      split at hb
      · next heq => exact Or.inl ⟨heq, (Option.some.inj hb).symm⟩
      · split at hb
        · next heq => exact Or.inr ⟨heq, (Option.some.inj hb).symm⟩
        · exact absurd hb (by simp)
    by_cases hu : includeUsb = true
    · refine ⟨base, selectUsb drives (pyLower (pyStrip rawSel)), rfl, ?_, hbase, ?_, ?_⟩
      · rw [← h, hu]
        simp
      · intro p hp
        exact selectUsb_mem drives _ p hp
      · intro hfalse
        rw [hu] at hfalse
        exact absurd hfalse (by simp)
    · have hu2 : includeUsb = false := by
        cases includeUsb
        · rfl
        · exact absurd rfl hu
      refine ⟨base, [], rfl, ?_, hbase, ?_, fun _ => rfl⟩
      · rw [← h, hu2]
        simp
      · intro p hp
        simp at hp

/-- C7 witness: the statement instantiated at a system-type create that
confirms the single enumerated drive with the selection "1". -/
theorem claim7_witness :
    (createBackupTargets (("system").data) true [("/media/u").data] (("1").data)
      = some [("/etc").data, ("/media/u").data]) ∧
    (∃ base extra,
      baseTargets (("system").data) = some base ∧
      [("/etc").data, ("/media/u").data] = base ++ extra ∧
      ((("system").data = ("system").data ∧ base = [("/etc").data]) ∨
       (("system").data = ("full").data ∧
         base = [("/etc").data, ("/home").data])) ∧
      (∀ p ∈ extra, p ∈ [("/media/u").data]) ∧
      (true = false → extra = [])) :=
  ⟨by decide,
   claim7_targets (("system").data) true [("/media/u").data] (("1").data)
     [("/etc").data, ("/media/u").data] (by decide)⟩

/-- C8 counterexample: create with type system and no explicit name
generates the name restore_ followed by the timestamp, not system_
followed by the timestamp. -/
theorem claim8_counterexample :
    restore_point_name none (("20240101_120000").data)
      = ("restore_20240101_120000").data ∧
    restore_point_name none (("20240101_120000").data)
      ≠ ("system_20240101_120000").data := by
  constructor
  · decide
  · decide

/-- C8 (amended): with no explicit name the generated snapshot name is
"restore_" followed by the creation timestamp, independent of the type
(the type never enters the name computation), and a system-type create
still targets exactly /etc. -/
theorem claim8_amended (ts : Str) (drives : List Str) (rawSel : Str) :
    restore_point_name none ts = ("restore_").data ++ ts ∧
    baseTargets (("system").data) = some [("/etc").data] ∧
    createBackupTargets (("system").data) false drives rawSel
      = some [("/etc").data] := by
  refine ⟨rfl, rfl, ?_⟩
  simp [createBackupTargets, baseTargets]

/-- C9: every mount path returned by the removable-volume enumeration
comes from an lsblk row whose device type is part or disk and whose
lowercased transport contains "usb", and never starts with one of the
refused core system directory prefixes; a failing lsblk subprocess or an
exception inside the parsing loop yields an empty result with a warning
instead of failing the caller. -/
theorem claim9_enumeration (lsblkLines : List Str) (isDir : Str → Bool) (mp : Str)
    (h : mp ∈ (get_mounted_usb_drives (some lsblkLines) isDir).fst) :
    excludedMount mp = false ∧
    (∃ line, line ∈ lsblkLines ∧
        mp = lineMountpoint line ∧
        pyContains (pyLower (lineTransport line)) (("usb").data) = true ∧
        (lineDevType line = ("part").data ∨ lineDevType line = ("disk").data)) ∧
    get_mounted_usb_drives none isDir = ([], true) ∧
    (∀ ls, processLsblkLines ls = none →
        get_mounted_usb_drives (some ls) isDir = ([], true)) := by
  have hline : ∃ line, line ∈ lsblkLines ∧ lsblkLineStep line = LineStep.take mp := by
    cases hp : processLsblkLines lsblkLines with
    | none =>
      simp only [get_mounted_usb_drives, hp] at h
      simp at h
    | some mps =>
      simp only [get_mounted_usb_drives, hp] at h
      have hmem : mp ∈ mps := by
        have h1 := (List.mem_filter.mp h).1
        exact mem_pyDedup mp mps ((mem_pySorted mp (pyDedup mps)).mp h1)
      exact processLsblkLines_mem lsblkLines mps hp mp hmem
  rcases hline with ⟨line, hl, hstep⟩
  rcases lsblkLineStep_take line mp hstep with ⟨hmp, hexc, husb, htype⟩
  refine ⟨hexc, ⟨line, hl, hmp, husb, htype⟩, rfl, ?_⟩
  intro ls hls
  simp only [get_mounted_usb_drives, hls]

/-- C9 witness: the statement instantiated at a single well-formed lsblk
row describing a usb-attached partition mounted under /media. -/
theorem claim9_witness :
    ((("/media/usbstick").data
        ∈ (get_mounted_usb_drives (some [("sdb1 /media/usbstick part usb vfat").data])
            (fun _ => true)).fst) ∧
     (excludedMount (("/media/usbstick").data) = false ∧
      (∃ line, line ∈ [("sdb1 /media/usbstick part usb vfat").data] ∧
          ("/media/usbstick").data = lineMountpoint line ∧
          pyContains (pyLower (lineTransport line)) (("usb").data) = true ∧
          (lineDevType line = ("part").data ∨ lineDevType line = ("disk").data)) ∧
      get_mounted_usb_drives none (fun _ => true) = ([], true) ∧
      (∀ ls, processLsblkLines ls = none →
          get_mounted_usb_drives (some ls) (fun _ => true) = ([], true)))) :=
  ⟨by decide,
   claim9_enumeration [("sdb1 /media/usbstick part usb vfat").data]
     (fun _ => true) (("/media/usbstick").data) (by decide)⟩

/-- C10 counterexample: in a catalog holding the single file
x.tar.gz.tar.gz, List displays the name x (item.replace removes every
occurrence of .tar.gz), yet Restore of x looks for x.tar.gz, which does
not exist, so it fails with the not-found hint and exit 1: a listed name
that is not restorable. -/
theorem claim10_counterexample :
    ("x").data ∈ list_restore_points [("x.tar.gz.tar.gz").data] ∧
    archiveFileName (("x").data) ∉ [("x.tar.gz.tar.gz").data] ∧
    (restore_from_point [("x.tar.gz.tar.gz").data] (("x").data) (("yes").data)
        ExtractOutcome.success).exit = 1 ∧
    (restore_from_point [("x.tar.gz.tar.gz").data] (("x").data) (("yes").data)
        ExtractOutcome.success).hint = some [("x").data] := by
  refine ⟨by decide, by decide, by decide, by decide⟩

/-- C10 (amended): restore and delete locate a snapshot exactly when the
single file name.tar.gz exists in the catalog directory, and this
coincides with the name being listed provided every archive file of the
directory contains .tar.gz only as its final suffix (stripping all
occurrences and re-appending the suffix reproduces the file name); without
that proviso a listed name need not be restorable. -/
theorem claim10_amended (dir : DirState) (n answer : Str)
    (hcanon : ∀ f ∈ dir, pyEndsWith f tarGzExt = true →
        pyReplace f tarGzExt [] ++ tarGzExt = f) :
    (n ∈ list_restore_points dir ↔ archiveFileName n ∈ dir) ∧
    ((restore_from_point dir n answer ExtractOutcome.success).hint = none
      ↔ archiveFileName n ∈ dir) ∧
    ((delete_restore_point dir n answer RemoveOutcome.success).hint = none
      ↔ archiveFileName n ∈ dir) := by
  have hlist : n ∈ list_restore_points dir ↔ archiveFileName n ∈ dir := by
    constructor
    · intro hmem
      rcases (mem_list_restore_points dir n).mp hmem with ⟨f, hf, he, hr⟩
      have hcf := hcanon f hf he
      rw [hr] at hcf
      unfold archiveFileName
      rw [hcf]
      exact hf
    · intro hmem
      refine (mem_list_restore_points dir n).mpr ⟨archiveFileName n, hmem, ?_, ?_⟩
      · unfold archiveFileName
        exact pyEndsWith_append n tarGzExt
      · have hcf := hcanon (archiveFileName n) hmem
          (by unfold archiveFileName; exact pyEndsWith_append n tarGzExt)
        unfold archiveFileName at hcf ⊢
        exact List.append_cancel_right hcf
  have hrestore : (restore_from_point dir n answer ExtractOutcome.success).hint = none
      ↔ archiveFileName n ∈ dir := by
    by_cases hmem : archiveFileName n ∈ dir
    · constructor
      · intro _; exact hmem
      · intro _
        unfold restore_from_point
        rw [if_pos hmem]
        split
        · rfl
        · rfl
    · constructor
      · intro hh
        unfold restore_from_point at hh
        rw [if_neg hmem] at hh
        exact absurd hh (by simp)
      · intro hh; exact absurd hh hmem
  have hdelete : (delete_restore_point dir n answer RemoveOutcome.success).hint = none
      ↔ archiveFileName n ∈ dir := by
    by_cases hmem : archiveFileName n ∈ dir
    · constructor
      · intro _; exact hmem
      · intro _
        unfold delete_restore_point
        rw [if_pos hmem]
        split
        · rfl
        · rfl
    · constructor
      · intro hh
        unfold delete_restore_point at hh
        rw [if_neg hmem] at hh
        exact absurd hh (by simp)
      · intro hh; exact absurd hh hmem
  exact ⟨hlist, hrestore, hdelete⟩

/-- C10 witness: the amended statement instantiated at a one-snapshot
catalog whose file name contains .tar.gz only as its suffix. -/
theorem claim10_witness :
    (∀ f ∈ [("a.tar.gz").data], pyEndsWith f tarGzExt = true →
        pyReplace f tarGzExt [] ++ tarGzExt = f) ∧
    ((("a").data ∈ list_restore_points [("a.tar.gz").data]
        ↔ archiveFileName (("a").data) ∈ [("a.tar.gz").data]) ∧
     ((restore_from_point [("a.tar.gz").data] (("a").data) (("yes").data)
          ExtractOutcome.success).hint = none
        ↔ archiveFileName (("a").data) ∈ [("a.tar.gz").data]) ∧
     ((delete_restore_point [("a.tar.gz").data] (("a").data) (("yes").data)
          RemoveOutcome.success).hint = none
        ↔ archiveFileName (("a").data) ∈ [("a.tar.gz").data])) :=
  ⟨by decide,
   claim10_amended [("a.tar.gz").data] (("a").data) (("yes").data) (by decide)⟩

end LinuxRestorePoint
